import Mathlib

/-!
Verification of `dbx/utils/watchdog/tunnel_manager.py`: the SSH-config-backed
connection registry (`SSHConfig`), the ngrok URL parser
(`TunnelManager._parse_url`), the establishment procedure
(`TunnelManager.initialize_tunnel`) and the reconciliation loop
(`TunnelManager.tunnel_routine`).
-/

/-- Python exception values the code under study can raise or catch while
reading the registry or parsing the tunnel URL. -/
inductive PyErr where
  | keyError (key : String)
  | valueError
  deriving DecidableEq, Repr

/-- Modelled from the spec: `TunnelInfo` (imported from `dbx.utils.common`,
which is not among the sources) is a value record of host, port and
private-key-file path. -/
structure TunnelInfo where
  host : String
  port : Nat
  private_key_file : String
  deriving DecidableEq, Repr

deriving instance DecidableEq for Except

/-- The decimal digit character for `d` (meaningful for `d < 10`). -/
def digitChar (d : Nat) : Char := Char.ofNat (48 + d)

/-- Little-endian decimal digit characters of `n`, with enough fuel to
terminate structurally (so that the kernel can evaluate it). -/
def natDigitsAux : Nat → Nat → List Char
  | 0, _ => []
  | _ + 1, 0 => []
  | fuel + 1, n + 1 => digitChar ((n + 1) % 10) :: natDigitsAux fuel ((n + 1) / 10)

/-- Model of Python `str` on a nonnegative integer: its decimal digit string. -/
def pyStr (n : Nat) : String :=
  if n = 0 then "0" else String.mk (natDigitsAux n n).reverse

/-- Digit-string parsing: `some` of the value on a nonempty all-digit string,
`none` otherwise. Python `int` additionally accepts surrounding whitespace and
an optional sign; no input relevant to the code under study carries those. -/
def parseDigits (l : List Char) : Option Nat :=
  if l ≠ [] ∧ l.all Char.isDigit then
    some (l.foldl (fun a c => a * 10 + (c.toNat - 48)) 0)
  else none

/-- Model of Python `int(s)`, raising `ValueError` on non-digit input. -/
def pyInt (s : String) : Except PyErr Nat :=
  match parseDigits s.data with
  | some n => Except.ok n
  | none => Except.error PyErr.valueError

/-- Model of Python `url.replace('tcp://', "")`: delete every occurrence of
the scheme substring, scanning left to right over non-overlapping matches. -/
def stripScheme : List Char → List Char
  | 't' :: 'c' :: 'p' :: ':' :: '/' :: '/' :: rest => stripScheme rest
  | c :: rest => c :: stripScheme rest
  | [] => []

/-- Model of Python `s.split(":")`: chunks between colons, keeping empty
chunks (so the result is always nonempty). -/
def pySplitColon : List Char → List (List Char)
  | [] => [[]]
  | c :: rest =>
    if c = ':' then [] :: pySplitColon rest
    else
      match pySplitColon rest with
      | chunk :: chunks => (c :: chunk) :: chunks
      | [] => [[c]]

/-- `TunnelManager._parse_url`: drop the `tcp://` scheme substring, split on
`:`, and require exactly a host and an integer port; Python raises
`ValueError` from tuple unpacking when the split is not a pair, or from
`int` when the port is not numeric. -/
def parse_url (url : String) : Except PyErr (String × Nat) :=
  match pySplitColon (stripScheme url.data) with
  | [h, p] =>
    match parseDigits p with
    | some n => Except.ok (String.mk h, n)
    | none => Except.error PyErr.valueError
  | _ => Except.error PyErr.valueError

/-- One host-alias block of the SSH configuration file: the alias and its
keyword/value fields. The `sshconf` library normalizes keyword case, so keys
are kept lowercase here. -/
structure SSHEntry where
  name : String
  fields : List (String × String)
  deriving DecidableEq, Repr

/-- Modelled from the spec: the state of the `sshconf` library's config
object (the library is an external dependency, not among the sources) — an
ordered list of host-alias blocks plus a flag recording whether the current
in-memory state has been flushed to the backing file. -/
structure SSHConf where
  entries : List SSHEntry
  saved : Bool
  deriving DecidableEq, Repr

/-- Modelled from the spec: `sshconf` `host(name)` returns the field mapping
of the first block for `name`, empty if there is none. -/
def SSHConf.host (c : SSHConf) (name : String) : List (String × String) :=
  match c.entries.find? (fun e => e.name == name) with
  | some e => e.fields
  | none => []

/-- Modelled from the spec: `sshconf` `hosts()` returns the host aliases. -/
def SSHConf.hosts (c : SSHConf) : List String := c.entries.map (·.name)

/-- Upsert of one keyword/value pair in a field list: overwrite in place if
the keyword is present, append otherwise. -/
def setField (fs : List (String × String)) (k v : String) : List (String × String) :=
  if fs.any (fun p => p.1 == k) then
    fs.map (fun p => if p.1 == k then (k, v) else p)
  else fs ++ [(k, v)]

/-- The four keyword arguments `SSHConfig.set` passes (`Hostname`, `Port`,
`User`, `IdentityFile`), applied in order as field upserts. -/
def sshSetFields (fs : List (String × String)) (hostname port user idf : String) :
    List (String × String) :=
  setField (setField (setField (setField fs "hostname" hostname) "port" port) "user" user)
    "identityfile" idf

/-- Modelled from the spec: `sshconf` `set(name, **kwargs)` overwrites the
given fields of every block for `name`, in place. -/
def SSHConf.set (c : SSHConf) (name hostname port user idf : String) : SSHConf :=
  { entries := c.entries.map (fun e =>
      if e.name == name then { e with fields := sshSetFields e.fields hostname port user idf }
      else e),
    saved := false }

/-- Modelled from the spec: `sshconf` `add(name, **kwargs)` appends a new
block for `name` with the given fields. -/
def SSHConf.add (c : SSHConf) (name hostname port user idf : String) : SSHConf :=
  { entries := c.entries ++ [⟨name, sshSetFields [] hostname port user idf⟩],
    saved := false }

/-- Modelled from the spec: `sshconf` `remove(name)` deletes the block for
`name`; per the spec this is a no-op (not an error) when none exists. -/
def SSHConf.remove (c : SSHConf) (name : String) : SSHConf :=
  { entries := c.entries.filter (fun e => !(e.name == name)), saved := false }

/-- Modelled from the spec: `sshconf` `save()` flushes the in-memory state to
the backing file. -/
def SSHConf.save (c : SSHConf) : SSHConf := { c with saved := true }

/-- Field lookup in a block, Python `_host["key"]`: `KeyError` if absent. -/
def getItem (fs : List (String × String)) (k : String) : Except PyErr String :=
  match fs.lookup k with
  | some v => Except.ok v
  | none => Except.error (PyErr.keyError k)

/-- `SSHConfig.get`: look the cluster's block up; an empty mapping is falsy in
Python, giving an implicit `None`; otherwise build a `TunnelInfo` from the
`hostname`, `int(port)` and `identityfile` fields (left to right, so a
missing or non-numeric field raises). -/
def SSHConfig.get (c : SSHConf) (cluster_id : String) :
    Except PyErr (Option TunnelInfo) :=
  let h := c.host cluster_id
  if h = [] then Except.ok none
  else
    match getItem h "hostname" with
    | Except.error e => Except.error e
    | Except.ok hostname =>
      match getItem h "port" with
      | Except.error e => Except.error e
      | Except.ok portStr =>
        match pyInt portStr with
        | Except.error e => Except.error e
        | Except.ok port =>
          match getItem h "identityfile" with
          | Except.error e => Except.error e
          | Except.ok idf => Except.ok (some ⟨hostname, port, idf⟩)

/-- `SSHConfig.set`: update the block in place when the cluster already has
one, otherwise add a fresh block; then save. The `User` field is the constant
`root`, and the port is stored as its decimal string. -/
def SSHConfig.set (c : SSHConf) (cluster_id : String) (info : TunnelInfo) : SSHConf :=
  let c' :=
    if cluster_id ∈ c.hosts then
      c.set cluster_id info.host (pyStr info.port) "root" info.private_key_file
    else
      c.add cluster_id info.host (pyStr info.port) "root" info.private_key_file
  c'.save

/-- `SSHConfig.remove`: drop the cluster's block and save. -/
def SSHConfig.remove (c : SSHConf) (cluster_id : String) : SSHConf :=
  (c.remove cluster_id).save

/-! ### The decimal digit model: `int(str(n)) = n` -/

theorem digitChar_isDigit : ∀ d, d < 10 → (digitChar d).isDigit = true := by decide

theorem digitChar_toNat : ∀ d, d < 10 → (digitChar d).toNat - 48 = d := by decide

theorem natDigitsAux_eq (fuel : Nat) : ∀ n, n ≤ fuel →
    natDigitsAux fuel n = (Nat.digits 10 n).map digitChar := by
  induction fuel with
  | zero =>
    intro n hn
    interval_cases n
    simp [natDigitsAux]
  | succ f ih =>
    intro n hn
    match n with
    | 0 => simp [natDigitsAux]
    | m + 1 =>
      have hdiv : (m + 1) / 10 < m + 1 := Nat.div_lt_self (Nat.succ_pos m) (by norm_num)
      rw [natDigitsAux, Nat.digits_def' (by norm_num : (1 : ℕ) < 10) (Nat.succ_pos m),
        List.map_cons]
      exact congrArg _ (ih _ (by omega))

theorem foldr_digits_ofDigits : ∀ L : List Nat, (∀ d ∈ L, d < 10) →
    L.foldr (fun d a => a * 10 + ((digitChar d).toNat - 48)) 0 = Nat.ofDigits 10 L := by
  intro L
  induction L with
  | nil => intro _; simp [Nat.ofDigits]
  | cons d L ih =>
    intro hd
    rw [List.foldr_cons, ih (fun x hx => hd x (List.mem_cons_of_mem d hx)),
      Nat.ofDigits_cons, digitChar_toNat d (hd d (List.mem_cons_self d L))]
    ring

theorem parseDigits_pyStr (n : Nat) : parseDigits (pyStr n).data = some n := by
  by_cases h0 : n = 0
  · subst h0; decide
  · have hdata : (pyStr n).data = ((Nat.digits 10 n).map digitChar).reverse := by
      rw [pyStr, if_neg h0, natDigitsAux_eq n n (le_refl n)]
    have hlt : ∀ d ∈ Nat.digits 10 n, d < 10 := fun d hd =>
      Nat.digits_lt_base (by norm_num) hd
    have hne : (Nat.digits 10 n).map digitChar ≠ [] := by
      simp [Nat.digits_ne_nil_iff_ne_zero.mpr h0]
    have hall : (((Nat.digits 10 n).map digitChar).reverse).all Char.isDigit = true := by
      rw [List.all_eq_true]
      intro c hc
      rw [List.mem_reverse, List.mem_map] at hc
      obtain ⟨d, hd, rfl⟩ := hc
      exact digitChar_isDigit d (hlt d hd)
    rw [hdata, parseDigits, if_pos]
    · rw [List.foldl_reverse, List.foldr_map, foldr_digits_ofDigits _ hlt,
        Nat.ofDigits_digits]
    · exact ⟨by simpa using hne, hall⟩

theorem pyInt_pyStr (n : Nat) : pyInt (pyStr n) = Except.ok n := by
  rw [pyInt, parseDigits_pyStr]

/-! ### Field upserts and block lookup -/

theorem lookup_overwrite_self (k v : String) :
    ∀ fs : List (String × String), fs.any (fun p => p.1 == k) = true →
      (fs.map (fun p => if p.1 == k then (k, v) else p)).lookup k = some v := by
  intro fs
  induction fs with
  | nil => intro h; cases h
  | cons p fs ih =>
    obtain ⟨a, b⟩ := p
    intro h
    by_cases ha : a = k
    · rw [List.map_cons, if_pos (by simpa using ha)]
      simp [List.lookup_cons]
    · have h' : fs.any (fun q => q.1 == k) = true := by
        simpa [List.any_cons, ha] using h
      rw [List.map_cons, if_neg (by simpa using ha), List.lookup_cons]
      have hk : (k == a) = false := by simp [Ne.symm ha]
      rw [hk]
      exact ih h'

theorem lookup_overwrite_ne (k v k' : String) (hk : k' ≠ k) :
    ∀ fs : List (String × String),
      (fs.map (fun p => if p.1 == k then (k, v) else p)).lookup k' = fs.lookup k' := by
  intro fs
  induction fs with
  | nil => rfl
  | cons p fs ih =>
    obtain ⟨a, b⟩ := p
    by_cases ha : a = k
    · rw [List.map_cons, if_pos (by simpa using ha), List.lookup_cons, List.lookup_cons]
      have h1 : (k' == k) = false := by simp [hk]
      have h2 : (k' == a) = false := by simp [ha ▸ hk]
      rw [h1, h2]
      exact ih
    · rw [List.map_cons, if_neg (by simpa using ha), List.lookup_cons, List.lookup_cons]
      cases hka : (k' == a) with
      | true => rfl
      | false => exact ih

theorem lookup_none_of_any_false (k : String) (fs : List (String × String))
    (h : ¬ fs.any (fun p => p.1 == k) = true) : fs.lookup k = none := by
  rw [List.lookup_eq_none_iff]
  intro p hp
  simp only [bne_iff_ne]
  intro hc
  exact h (List.any_eq_true.mpr ⟨p, hp, by simp [hc.symm]⟩)

theorem lookup_setField_self (fs : List (String × String)) (k v : String) :
    (setField fs k v).lookup k = some v := by
  rw [setField]
  by_cases h : fs.any (fun p => p.1 == k) = true
  · rw [if_pos h]
    exact lookup_overwrite_self k v fs h
  · rw [if_neg h, List.lookup_append, lookup_none_of_any_false k fs h]
    simp [List.lookup_cons]

theorem lookup_setField_ne (fs : List (String × String)) (k v k' : String) (hk : k' ≠ k) :
    (setField fs k v).lookup k' = fs.lookup k' := by
  rw [setField]
  by_cases h : fs.any (fun p => p.1 == k) = true
  · rw [if_pos h]
    exact lookup_overwrite_ne k v k' hk fs
  · rw [if_neg h, List.lookup_append]
    have h1 : (k' == k) = false := by simp [hk]
    have hone : ([(k, v)] : List (String × String)).lookup k' = none := by
      simp [List.lookup_cons, h1]
    rw [hone, Option.or_none]

theorem setField_ne_nil (fs : List (String × String)) (k v : String) :
    setField fs k v ≠ [] := by
  rw [setField]
  split
  · rename_i hany
    rw [List.any_eq_true] at hany
    obtain ⟨p, hp, _⟩ := hany
    cases fs with
    | nil => cases hp
    | cons q fs => simp
  · simp

theorem sshSetFields_ne_nil (fs : List (String × String)) (h p u i : String) :
    sshSetFields fs h p u i ≠ [] := by
  rw [sshSetFields]
  exact setField_ne_nil _ _ _

theorem lookup_ssh_hostname (fs : List (String × String)) (h p u i : String) :
    (sshSetFields fs h p u i).lookup "hostname" = some h := by
  rw [sshSetFields, lookup_setField_ne _ _ _ _ (by decide),
    lookup_setField_ne _ _ _ _ (by decide), lookup_setField_ne _ _ _ _ (by decide)]
  exact lookup_setField_self _ _ _

theorem lookup_ssh_port (fs : List (String × String)) (h p u i : String) :
    (sshSetFields fs h p u i).lookup "port" = some p := by
  rw [sshSetFields, lookup_setField_ne _ _ _ _ (by decide),
    lookup_setField_ne _ _ _ _ (by decide)]
  exact lookup_setField_self _ _ _

theorem lookup_ssh_user (fs : List (String × String)) (h p u i : String) :
    (sshSetFields fs h p u i).lookup "user" = some u := by
  rw [sshSetFields, lookup_setField_ne _ _ _ _ (by decide)]
  exact lookup_setField_self _ _ _

theorem lookup_ssh_identityfile (fs : List (String × String)) (h p u i : String) :
    (sshSetFields fs h p u i).lookup "identityfile" = some i := by
  rw [sshSetFields]
  exact lookup_setField_self _ _ _

theorem host_save (c : SSHConf) (n : String) : (SSHConf.save c).host n = c.host n := rfl

theorem host_SSHConf_set_of_mem (c : SSHConf) (n h p u i : String) (hmem : n ∈ c.hosts) :
    (SSHConf.set c n h p u i).host n = sshSetFields (c.host n) h p u i := by
  have hcomp : ((fun e : SSHEntry => e.name == n) ∘
      (fun e : SSHEntry =>
        if e.name == n then { e with fields := sshSetFields e.fields h p u i } else e)) =
      (fun e : SSHEntry => e.name == n) := by
    funext e
    by_cases he : e.name == n <;> simp [Function.comp, he]
  obtain ⟨e, he, hname⟩ := List.mem_map.mp hmem
  have hsome : (c.entries.find? (fun e => e.name == n)).isSome := by
    rw [List.find?_isSome]
    exact ⟨e, he, by simp [hname]⟩
  obtain ⟨e', hfind⟩ := Option.isSome_iff_exists.mp hsome
  have hname' : (e'.name == n) = true := by
    have hp := List.find?_some hfind
    simpa using hp
  rw [SSHConf.set, SSHConf.host, SSHConf.host, List.find?_map, hcomp, hfind]
  have hn : e'.name = n := by simpa using hname'
  simp [hn]

theorem host_SSHConf_add_of_not_mem (c : SSHConf) (n h p u i : String) (hmem : n ∉ c.hosts) :
    (SSHConf.add c n h p u i).host n = sshSetFields [] h p u i := by
  have hnone : c.entries.find? (fun e => e.name == n) = none := by
    rw [List.find?_eq_none]
    intro e he
    simp only [beq_iff_eq]
    exact fun hc => hmem (List.mem_map.mpr ⟨e, he, hc⟩)
  rw [SSHConf.add, SSHConf.host]
  simp only [List.find?_append, hnone, Option.none_or]
  simp [List.find?]

theorem host_SSHConfig_set (c : SSHConf) (cid : String) (info : TunnelInfo) :
    ∃ fs, (SSHConfig.set c cid info).host cid =
      sshSetFields fs info.host (pyStr info.port) "root" info.private_key_file := by
  rw [SSHConfig.set]
  by_cases hmem : cid ∈ c.hosts
  · rw [if_pos hmem, host_save]
    exact ⟨c.host cid, host_SSHConf_set_of_mem c cid _ _ _ _ hmem⟩
  · rw [if_neg hmem, host_save]
    exact ⟨[], host_SSHConf_add_of_not_mem c cid _ _ _ _ hmem⟩

theorem get_after_set (c : SSHConf) (cid : String) (info : TunnelInfo) :
    SSHConfig.get (SSHConfig.set c cid info) cid = Except.ok (some info) := by
  obtain ⟨fs, hfs⟩ := host_SSHConfig_set c cid info
  rw [SSHConfig.get]
  simp only [hfs]
  rw [if_neg (sshSetFields_ne_nil _ _ _ _ _)]
  rw [getItem, lookup_ssh_hostname, getItem, lookup_ssh_port]
  simp [pyInt_pyStr, getItem, lookup_ssh_identityfile]

/-! ### Counting, membership and removal of registry blocks -/

theorem name_overwrite (n h p u i : String) (e : SSHEntry) :
    ((fun e : SSHEntry =>
      if e.name == n then { e with fields := sshSetFields e.fields h p u i } else e) e).name =
      e.name := by
  by_cases hb : (e.name == n) = true <;> simp [hb]

theorem countP_SSHConf_set (c : SSHConf) (n h p u i : String) :
    ((SSHConf.set c n h p u i).entries).countP (fun e => e.name == n) =
      c.entries.countP (fun e => e.name == n) := by
  rw [SSHConf.set, List.countP_map]
  apply List.countP_congr
  intro e _
  rw [Function.comp_apply, name_overwrite]

theorem countP_SSHConfig_set (c : SSHConf) (cid : String) (info : TunnelInfo)
    (hc : c.entries.countP (fun e => e.name == cid) ≤ 1) :
    ((SSHConfig.set c cid info).entries).countP (fun e => e.name == cid) = 1 := by
  rw [SSHConfig.set]
  by_cases hmem : cid ∈ c.hosts
  · rw [if_pos hmem]
    have h1 : 0 < c.entries.countP (fun e => e.name == cid) := by
      rw [List.countP_pos_iff]
      obtain ⟨e, he, hname⟩ := List.mem_map.mp hmem
      exact ⟨e, he, by simp [hname]⟩
    have h2 := countP_SSHConf_set c cid info.host (pyStr info.port) "root"
      info.private_key_file
    have hsave : ((SSHConf.set c cid info.host (pyStr info.port) "root"
        info.private_key_file).save).entries =
        (SSHConf.set c cid info.host (pyStr info.port) "root"
          info.private_key_file).entries := rfl
    rw [hsave, h2]
    omega
  · rw [if_neg hmem]
    have h0 : c.entries.countP (fun e => e.name == cid) = 0 := by
      rw [List.countP_eq_zero]
      intro e he
      simp only [beq_iff_eq]
      exact fun hcn => hmem (List.mem_map.mpr ⟨e, he, hcn⟩)
    rw [SSHConf.save, SSHConf.add]
    simp [List.countP_append, h0, List.countP_cons]

theorem host_SSHConfig_remove (c : SSHConf) (cid : String) :
    (SSHConfig.remove c cid).host cid = [] := by
  rw [SSHConfig.remove, host_save, SSHConf.remove, SSHConf.host]
  have hn : (c.entries.filter (fun e => !(e.name == cid))).find?
      (fun e => e.name == cid) = none := by
    rw [List.find?_eq_none]
    intro e he
    have hmem := (List.mem_filter.mp he).2
    simpa using hmem
  simp [hn]

theorem get_of_host_nil (c : SSHConf) (cid : String) (h : c.host cid = []) :
    SSHConfig.get c cid = Except.ok none := by
  rw [SSHConfig.get]
  simp [h]

theorem get_SSHConfig_remove (c : SSHConf) (cid : String) :
    SSHConfig.get (SSHConfig.remove c cid) cid = Except.ok none :=
  get_of_host_nil _ _ (host_SSHConfig_remove c cid)

/-! ### Shape lemmas for the URL parser -/

theorem stripScheme_eq_self (l : List Char) (h : ':' ∉ l) : stripScheme l = l := by
  induction l using stripScheme.induct with
  | case1 rest ih => simp at h
  | case2 c rest h2 ih =>
    rw [stripScheme.eq_def]
    split
    · rename_i heq
      simp_all
    · rename_i c' rest' _ heq
      cases heq
      have hr : ':' ∉ rest := fun hm => h (List.mem_cons_of_mem c hm)
      rw [ih hr]
    · rename_i heq
      exact absurd heq (by simp)
  | case3 => rfl

theorem stripScheme_append (l1 l2 : List Char) (h1 : ':' ∉ l1) (h2 : ':' ∉ l2)
    (h3 : '/' ∉ l2) : stripScheme (l1 ++ ':' :: l2) = l1 ++ ':' :: l2 := by
  induction l1 with
  | nil =>
    rw [List.nil_append, stripScheme.eq_def]
    split
    · rename_i heq
      simp_all
    · rename_i c' rest' _ heq
      cases heq
      rw [stripScheme_eq_self l2 h2]
    · rename_i heq
      exact absurd heq (by simp)
  | cons c r ih =>
    have hc : ':' ∉ r := fun hm => h1 (List.mem_cons_of_mem c hm)
    rw [List.cons_append, stripScheme.eq_def]
    split
    · rename_i rest heq
      -- the pattern `tcp://` cannot occur across the single colon: its colon
      -- would have to lie in l1, be followed by a slash from l2, or misalign.
      exfalso
      rcases r with _ | ⟨a, _ | ⟨b, _ | ⟨d, r'⟩⟩⟩ <;> simp_all
    · rename_i c' rest' _ heq
      cases heq
      rw [ih hc]
    · rename_i heq
      exact absurd heq (by simp)

theorem pySplitColon_no_colon (l : List Char) (h : ':' ∉ l) : pySplitColon l = [l] := by
  induction l with
  | nil => rfl
  | cons c rest ih =>
    have hc : ¬ c = ':' := fun hc => h (hc ▸ List.mem_cons_self c rest)
    have hrest : ':' ∉ rest := fun hm => h (List.mem_cons_of_mem c hm)
    rw [pySplitColon, if_neg hc, ih hrest]

theorem pySplitColon_append (l1 l2 : List Char) (h1 : ':' ∉ l1) :
    pySplitColon (l1 ++ ':' :: l2) = l1 :: pySplitColon l2 := by
  induction l1 with
  | nil => rw [List.nil_append, pySplitColon, if_pos rfl]
  | cons c r ih =>
    have hc : ¬ c = ':' := fun hc => h1 (hc ▸ List.mem_cons_self c r)
    have hr : ':' ∉ r := fun hm => h1 (List.mem_cons_of_mem c hm)
    rw [List.cons_append, pySplitColon, if_neg hc, ih hr]

theorem parseDigits_no_colon_slash (l : List Char) (p : Nat)
    (hp : parseDigits l = some p) : l ≠ [] ∧ ':' ∉ l ∧ '/' ∉ l := by
  rw [parseDigits] at hp
  by_cases hg : l ≠ [] ∧ l.all Char.isDigit
  · obtain ⟨hne, hall⟩ := hg
    rw [List.all_eq_true] at hall
    refine ⟨hne, fun hm => ?_, fun hm => ?_⟩
    · have := hall _ hm
      simp [Char.isDigit] at this
    · have := hall _ hm
      simp [Char.isDigit] at this
  · rw [if_neg hg] at hp
    cases hp

/-- The two kinds of raised signal the loop distinguishes: Python
`KeyboardInterrupt` is not a subclass of `Exception`, so an
`except Exception` clause does not catch it. -/
inductive Exn where
  | keyboardInterrupt
  | exception
  deriving DecidableEq, Repr

/-- The mutable `TunnelManager` state touched by the reconciliation loop:
`self._status`, `self.tunnel_info` and the `SSHConfig` registry state
(`self._cluster_id` is never reassigned, so it is a parameter instead). -/
structure MState where
  status : String
  tunnel_info : Option TunnelInfo
  conf : SSHConf
  deriving DecidableEq, Repr

/-- Outcome of one iteration of the `while True` loop of `tunnel_routine`:
either the iteration ran to completion and the loop continues, or an uncaught
exception propagates out of the coroutine, terminating the loop. -/
inductive StepResult where
  | ok (next : MState)
  | raise (e : Exn) (partialState : MState)
  deriving DecidableEq, Repr

/-- One iteration of `TunnelManager.tunnel_routine`. The external
collaborators are inputs: `contextStatus` is the context manager's readiness
string, `checkResult` the outcome of `self._check_tunnel()` (`none` when the
probe succeeds), and `initF` the behaviour of `self.initialize_tunnel()`
(the state after its partially or fully completed effects, plus the signal it
raises, if any). Sleeps only delay the next iteration and carry no state. -/
def tunnel_routine_step (cluster_id : String) (initF : MState → MState × Option Exn)
    (checkResult : Option Exn) (contextStatus : String) (s : MState) : StepResult :=
  if ¬ (contextStatus = "running") then
    StepResult.ok { s with status := "waiting for the context" }
  else
    match s.tunnel_info with
    | some _ =>
      let s1 := { s with status := "checking cached tunnel url" }
      match checkResult with
      | none => StepResult.ok { s1 with status := "running" }
      | some Exn.keyboardInterrupt =>
        -- logging.error("Gracefully stopping tunnel manager"); no break or
        -- return follows, so control falls through to the sleep and the loop
        -- continues.
        StepResult.ok s1
      | some Exn.exception =>
        let s2 := { s1 with status := "tunnel is unreachable, initializing a new one" }
        match initF s2 with
        | (s3, none) => StepResult.ok s3
        | (s3, some Exn.exception) =>
          -- except Exception: clear tunnel_info and the registry entry.
          StepResult.ok { s3 with tunnel_info := none,
                                  conf := SSHConfig.remove s3.conf cluster_id }
        | (s3, some Exn.keyboardInterrupt) =>
          -- the inner handler only catches Exception.
          StepResult.raise Exn.keyboardInterrupt s3
    | none =>
      let s4 := { s with status := "initializing a plain new tunnel" }
      match initF s4 with
      | (s5, none) => StepResult.ok s5
      | (s5, some e) =>
        -- this branch has no try/except: anything raised escapes the loop.
        StepResult.raise e s5

/-- The remote/local actions of `initialize_tunnel`, in source order, used to
record the execution trace. -/
inductive Step where
  | install_libraries
  | stop_ngrok
  | generate_key_pair
  | write_local_key
  | install_ssh_keys
  | generate_url
  | print_ssh_url
  | parse_tunnel_url
  | set_registry
  | prepare_sshd
  deriving DecidableEq, Repr

/-- External inputs of one run of `initialize_tunnel`: the stdout of the
`print_ssh_url` remote command, and whether `self._ssh_conf.set` raises (a
persistence failure of the backing file). The remote-executor and key
generation collaborators are modelled as succeeding; their failures are
covered by the abstract `initF` of `tunnel_routine_step`. -/
structure InitEnv where
  raw_ssh_url : String
  persistFails : Bool
  deriving DecidableEq, Repr

/-- `TunnelManager.initialize_tunnel`: install dependencies, stop any stale
tunnel process, generate a key pair, rewrite the local private-key file,
install the keys remotely, start the tunnel, print and parse its URL, assign
`self.tunnel_info`, persist it (failures here are caught and only logged) and
prepare the remote sshd. Returns the trace of actions, the resulting state
and the signal raised, if any. -/
def initialize_tunnel (env : InitEnv) (cluster_id : String) (s : MState) :
    List Step × MState × Option Exn :=
  let s := { s with status := "installing libraries" }
  let s := { s with status := "restarting tunnel appliance" }
  let s := { s with status := "preparing ssh keys" }
  let private_key_path := "~/.ssh/" ++ cluster_id
  let s := { s with status := "generating tunnel url" }
  let s := { s with status := "generating tunnel url - done" }
  let steps0 := [Step.install_libraries, Step.stop_ngrok, Step.generate_key_pair,
                 Step.write_local_key, Step.install_ssh_keys, Step.generate_url,
                 Step.print_ssh_url]
  match parse_url env.raw_ssh_url with
  | Except.error _ =>
    (steps0 ++ [Step.parse_tunnel_url], s, some Exn.exception)
  | Except.ok (host, port) =>
    let info : TunnelInfo := ⟨host, port, private_key_path⟩
    let s := { s with tunnel_info := some info }
    let s := if env.persistFails then s
             else { s with conf := SSHConfig.set s.conf cluster_id info }
    let s := { s with status := "preparing sshd service - done" }
    (steps0 ++ [Step.parse_tunnel_url, Step.set_registry, Step.prepare_sshd], s, none)

/-! ### Branch lemmas for one loop iteration -/

theorem step_waiting (cid : String) (initF : MState → MState × Option Exn)
    (checkResult : Option Exn) (ctx : String) (s : MState) (h : ¬ ctx = "running") :
    tunnel_routine_step cid initF checkResult ctx s =
      StepResult.ok { s with status := "waiting for the context" } := by
  rw [tunnel_routine_step, if_pos h]

theorem step_cached (cid : String) (initF : MState → MState × Option Exn)
    (checkResult : Option Exn) (s : MState) (i : TunnelInfo)
    (hi : s.tunnel_info = some i) :
    tunnel_routine_step cid initF checkResult "running" s =
      match checkResult with
      | none => StepResult.ok { s with status := "running" }
      | some Exn.keyboardInterrupt =>
        StepResult.ok { s with status := "checking cached tunnel url" }
      | some Exn.exception =>
        match initF { s with status := "tunnel is unreachable, initializing a new one" } with
        | (s3, none) => StepResult.ok s3
        | (s3, some Exn.exception) =>
          StepResult.ok { s3 with tunnel_info := none,
                                  conf := SSHConfig.remove s3.conf cid }
        | (s3, some Exn.keyboardInterrupt) => StepResult.raise Exn.keyboardInterrupt s3 := by
  rw [tunnel_routine_step, if_neg (by simp), hi]

theorem step_nocache (cid : String) (initF : MState → MState × Option Exn)
    (checkResult : Option Exn) (s : MState) (hi : s.tunnel_info = none) :
    tunnel_routine_step cid initF checkResult "running" s =
      match initF { s with status := "initializing a plain new tunnel" } with
      | (s5, none) => StepResult.ok s5
      | (s5, some e) => StepResult.raise e s5 := by
  rw [tunnel_routine_step, if_neg (by simp), hi]

/-! ### Fixtures for witnesses and counterexamples -/

def info0 : TunnelInfo := ⟨"10.0.0.5", 4040, "~/.ssh/c1"⟩

def emptyConf : SSHConf := ⟨[], true⟩

/-- A registry whose block for `c1` has a Hostname field but no Port. -/
def malformedConf : SSHConf := ⟨[⟨"c1", [("hostname", "10.0.0.5")]⟩], true⟩

/-- A state with a cached `tunnel_info`. -/
def cachedState : MState := ⟨"initializing", some info0, malformedConf⟩

/-- A state with no cached `tunnel_info`. -/
def plainState : MState := ⟨"initializing", none, emptyConf⟩

/-- An establishment behaviour that raises a plain exception and leaves the
state as it found it. -/
def failingInit : MState → MState × Option Exn := fun t => (t, some Exn.exception)

/-! ### The claims -/

/-- C1 is refuted: with the context ready and no cached `tunnel_info`, an
exception raised during full establishment is not caught inside the loop —
the iteration ends with the exception propagating out of `tunnel_routine`,
terminating the loop, instead of continuing to the next iteration. -/
theorem C1_counterexample :
    tunnel_routine_step "c1" failingInit none "running" plainState =
      StepResult.raise Exn.exception
        { plainState with status := "initializing a plain new tunnel" } := rfl

/-- C1 (amended): exception catching is branch-local. When the context is
ready and a cached `tunnel_info` exists, any probe outcome combined with any
re-establishment outcome other than a KeyboardInterrupt lets the iteration
complete normally, so the loop continues; but when no cached `tunnel_info`
exists, any signal raised during full establishment propagates out of the
loop. -/
theorem C1_catching_is_branch_local :
    (∀ (cid : String) (initF : MState → MState × Option Exn) (checkResult : Option Exn)
      (s : MState), s.tunnel_info ≠ none →
      (∀ t, (initF t).2 ≠ some Exn.keyboardInterrupt) →
      ∃ s', tunnel_routine_step cid initF checkResult "running" s = StepResult.ok s') ∧
    (∀ (cid : String) (initF : MState → MState × Option Exn) (checkResult : Option Exn)
      (s s' : MState) (e : Exn), s.tunnel_info = none →
      initF { s with status := "initializing a plain new tunnel" } = (s', some e) →
      tunnel_routine_step cid initF checkResult "running" s = StepResult.raise e s') := by
  constructor
  · intro cid initF checkResult s hs hki
    obtain ⟨i, hi⟩ := Option.ne_none_iff_exists'.mp hs
    rw [step_cached cid initF checkResult s i hi]
    rcases checkResult with _ | e
    · exact ⟨_, rfl⟩
    · cases e with
      | keyboardInterrupt => exact ⟨_, rfl⟩
      | exception =>
        rcases h3 : initF { s with status := "tunnel is unreachable, initializing a new one" }
          with ⟨s3, r⟩
        rcases r with _ | e'
        · exact ⟨_, rfl⟩
        · cases e' with
          | keyboardInterrupt =>
            have hcon := hki { s with status := "tunnel is unreachable, initializing a new one" }
            rw [h3] at hcon
            exact absurd rfl hcon
          | exception => exact ⟨_, rfl⟩
  · intro cid initF checkResult s s' e hi hinit
    rw [step_nocache cid initF checkResult s hi, hinit]

/-- C1 witness: both amended branches at concrete inputs — the cached-tunnel
branch swallows a double failure, the plain branch lets the same failure
escape. -/
theorem C1_catching_is_branch_local_witness :
    (∃ s', tunnel_routine_step "c1" failingInit (some Exn.exception) "running" cachedState =
      StepResult.ok s') ∧
    tunnel_routine_step "c1" failingInit none "running" plainState =
      StepResult.raise Exn.exception
        { plainState with status := "initializing a plain new tunnel" } := by
  constructor
  · exact C1_catching_is_branch_local.1 "c1" failingInit (some Exn.exception) cachedState
      (by decide) (fun t => by simp [failingInit])
  · exact C1_catching_is_branch_local.2 "c1" failingInit none plainState _ Exn.exception
      rfl rfl

/-- C3: in a cached-tunnel iteration whose probe raises and whose
re-establishment also raises, the iteration completes with `tunnel_info`
cleared to `none` and the registry block for the cluster removed (reading it
back yields absent). -/
theorem C3_failed_reinit_clears_info_and_registry (cid : String)
    (initF : MState → MState × Option Exn) (s : MState) (i : TunnelInfo)
    (hi : s.tunnel_info = some i)
    (hfail : ∀ t, (initF t).2 = some Exn.exception) :
    ∃ s', tunnel_routine_step cid initF (some Exn.exception) "running" s =
        StepResult.ok s' ∧
      s'.tunnel_info = none ∧ SSHConfig.get s'.conf cid = Except.ok none := by
  rw [step_cached cid initF (some Exn.exception) s i hi]
  rcases h3 : initF { s with status := "tunnel is unreachable, initializing a new one" }
    with ⟨s3, r⟩
  have hr : r = some Exn.exception := by
    have hr0 := hfail { s with status := "tunnel is unreachable, initializing a new one" }
    rw [h3] at hr0
    exact hr0
  subst hr
  exact ⟨_, rfl, rfl, get_SSHConfig_remove _ _⟩

/-- C3 witness: the double failure at a concrete cached state. -/
theorem C3_failed_reinit_clears_info_and_registry_witness :
    ∃ s', tunnel_routine_step "c1" failingInit (some Exn.exception) "running" cachedState =
        StepResult.ok s' ∧
      s'.tunnel_info = none ∧ SSHConfig.get s'.conf "c1" = Except.ok none :=
  C3_failed_reinit_clears_info_and_registry "c1" failingInit cachedState info0 rfl
    (fun _ => rfl)

/-- C9: a KeyboardInterrupt raised by the liveness probe is caught (the loop
does not crash) and the handler logs the shutdown message, but no break or
return follows it: the iteration completes normally and the loop continues
with the next iteration instead of exiting. -/
theorem C9_keyboard_interrupt_caught_but_loop_continues :
    tunnel_routine_step "c1" failingInit (some Exn.keyboardInterrupt) "running" cachedState =
      StepResult.ok { cachedState with status := "checking cached tunnel url" } := rfl

/-- C2 is refuted: the input `10.0.0.5:4040` is malformed per the claim
(missing the `tcp://` scheme), yet the parser returns a value instead of
failing. -/
theorem C2_counterexample :
    parse_url "10.0.0.5:4040" = Except.ok ("10.0.0.5", 4040) := by decide

/-- C2 (amended): `tcp://10.0.0.5:4040` parses to host `10.0.0.5` and port
`4040`, and an input missing the port (no colon remains after deleting the
scheme substring) fails with a parse error; but an input missing the scheme
is not rejected — `10.0.0.5:4040` parses successfully to the same host and
port. -/
theorem C2_parse_url_behaviour :
    parse_url "tcp://10.0.0.5:4040" = Except.ok ("10.0.0.5", 4040) ∧
    (∀ url : String, ':' ∉ stripScheme url.data →
      parse_url url = Except.error PyErr.valueError) ∧
    parse_url "10.0.0.5:4040" = Except.ok ("10.0.0.5", 4040) := by
  refine ⟨by decide, ?_, by decide⟩
  intro url hu
  rw [parse_url, pySplitColon_no_colon _ hu]

/-- C2 witness: the missing-port input `tcp://10.0.0.5` keeps no colon after
scheme deletion and is rejected. -/
theorem C2_parse_url_behaviour_witness :
    (':' ∉ stripScheme "tcp://10.0.0.5".data) ∧
    parse_url "tcp://10.0.0.5" = Except.error PyErr.valueError :=
  ⟨by decide, C2_parse_url_behaviour.2.1 "tcp://10.0.0.5" (by decide)⟩

/-- C10: the parser deletes every occurrence of the scheme substring instead
of requiring it as a leading prefix, so any scheme-less input
`<host>:<digits>` is accepted, returning the host and port unchanged. -/
theorem C10_schemeless_input_is_accepted (h ds : List Char) (p : Nat)
    (hh : ':' ∉ h) (hp : parseDigits ds = some p) :
    parse_url (String.mk (h ++ ':' :: ds)) = Except.ok (String.mk h, p) := by
  obtain ⟨hne, hcds, hsds⟩ := parseDigits_no_colon_slash ds p hp
  rw [parse_url]
  have hdata : (String.mk (h ++ ':' :: ds)).data = h ++ ':' :: ds := rfl
  rw [hdata, stripScheme_append h ds hh hcds hsds, pySplitColon_append h ds hh,
    pySplitColon_no_colon ds hcds]
  dsimp only
  rw [hp]

/-- C10 witness: the scheme-less input `10.0.0.5:4040`. -/
theorem C10_schemeless_input_is_accepted_witness :
    parseDigits ['4', '0', '4', '0'] = some 4040 ∧
    parse_url (String.mk (['1', '0', '.', '0', '.', '0', '.', '5'] ++
        ':' :: ['4', '0', '4', '0'])) =
      Except.ok (String.mk ['1', '0', '.', '0', '.', '0', '.', '5'], 4040) :=
  ⟨by decide, C10_schemeless_input_is_accepted _ _ _ (by decide) (by decide)⟩

theorem get_ne_ok_none_of_host_ne_nil (c : SSHConf) (cid : String)
    (hne : ¬ c.host cid = []) : SSHConfig.get c cid ≠ Except.ok none := by
  intro hg
  simp only [SSHConfig.get] at hg
  rw [if_neg hne] at hg
  rcases h1 : getItem (c.host cid) "hostname" with e1 | v1 <;> rw [h1] at hg
  · exact Except.noConfusion hg
  · dsimp only at hg
    rcases h2 : getItem (c.host cid) "port" with e2 | v2 <;> rw [h2] at hg
    · exact Except.noConfusion hg
    · dsimp only at hg
      rcases h3 : pyInt v2 with e3 | v3 <;> rw [h3] at hg
      · exact Except.noConfusion hg
      · dsimp only at hg
        rcases h4 : getItem (c.host cid) "identityfile" with e4 | v4 <;> rw [h4] at hg
        · exact Except.noConfusion hg
        · dsimp only at hg
          exact Option.noConfusion (Except.ok.inj hg)

theorem get_error_of_bad_port (c : SSHConf) (cid : String) (hne : ¬ c.host cid = [])
    (hport : (c.host cid).lookup "port" = none ∨
      ∃ sv, (c.host cid).lookup "port" = some sv ∧ parseDigits sv.data = none) :
    ∃ e, SSHConfig.get c cid = Except.error e := by
  simp only [SSHConfig.get]
  rw [if_neg hne]
  rcases h1 : getItem (c.host cid) "hostname" with e1 | v1
  · exact ⟨e1, rfl⟩
  · rcases hport with hnone | ⟨sv, hsv, hbad⟩
    · have h2 : getItem (c.host cid) "port" = Except.error (PyErr.keyError "port") := by
        rw [getItem, hnone]
      rw [h2]
      exact ⟨_, rfl⟩
    · have h2 : getItem (c.host cid) "port" = Except.ok sv := by
        rw [getItem, hsv]
      have h3 : pyInt sv = Except.error PyErr.valueError := by
        rw [pyInt, hbad]
      rw [h2]
      dsimp only
      rw [h3]
      exact ⟨_, rfl⟩

/-- C4 is refuted: with a registry block for `c1` carrying a Hostname but no
Port field, `get` raises a `KeyError` instead of returning absent. -/
theorem C4_counterexample :
    SSHConfig.get malformedConf "c1" = Except.error (PyErr.keyError "port") := by decide

/-- C4 (amended): `get` returns absent exactly when the cluster's block is
missing or empty; when a block exists but its Port field is missing or not
parseable as an integer, `get` fails with an error instead of returning
absent. -/
theorem C4_get_absent_iff_no_block (c : SSHConf) (cid : String) :
    (SSHConfig.get c cid = Except.ok none ↔ c.host cid = []) ∧
    (¬ c.host cid = [] →
      ((c.host cid).lookup "port" = none ∨
        ∃ sv, (c.host cid).lookup "port" = some sv ∧ parseDigits sv.data = none) →
      ∃ e, SSHConfig.get c cid = Except.error e) := by
  refine ⟨⟨fun hg => ?_, fun hnil => get_of_host_nil c cid hnil⟩,
    get_error_of_bad_port c cid⟩
  by_contra hne
  exact get_ne_ok_none_of_host_ne_nil c cid hne hg

/-- C4 witness: the malformed block (no Port) makes `get` fail. -/
theorem C4_get_absent_iff_no_block_witness :
    ¬ malformedConf.host "c1" = [] ∧
    (∃ e, SSHConfig.get malformedConf "c1" = Except.error e) :=
  ⟨by decide,
    (C4_get_absent_iff_no_block malformedConf "c1").2 (by decide) (Or.inl (by decide))⟩

/-- C7: persisting a `TunnelInfo` and reading it back returns it intact —
host, port and private-key-file path all round-trip (the port through its
decimal string form). -/
theorem C7_set_get_roundtrip (c : SSHConf) (cid : String) (info : TunnelInfo) :
    SSHConfig.get (SSHConfig.set c cid info) cid = Except.ok (some info) :=
  get_after_set c cid info

/-- C8: `remove` leaves the registry with no block for the cluster (reading
it back yields absent), flushes the backing file, and is a no-op — not an
error, being a total operation — when no block for the cluster exists. -/
theorem C8_remove_total_and_flushes (c : SSHConf) (cid : String) :
    SSHConfig.get (SSHConfig.remove c cid) cid = Except.ok none ∧
    (SSHConfig.remove c cid).saved = true ∧
    ((∀ e ∈ c.entries, e.name ≠ cid) → (SSHConfig.remove c cid).entries = c.entries) := by
  refine ⟨get_SSHConfig_remove c cid, rfl, fun hnone => ?_⟩
  show c.entries.filter (fun e => !(e.name == cid)) = c.entries
  rw [List.filter_eq_self]
  intro e he
  simpa using hnone e he

/-- C8 witness: removal from a registry with no block for `c1`. -/
theorem C8_remove_total_and_flushes_witness :
    (∀ e ∈ emptyConf.entries, e.name ≠ "c1") ∧
    SSHConfig.get (SSHConfig.remove emptyConf "c1") "c1" = Except.ok none ∧
    (SSHConfig.remove emptyConf "c1").saved = true ∧
    (SSHConfig.remove emptyConf "c1").entries = emptyConf.entries := by
  have h := C8_remove_total_and_flushes emptyConf "c1"
  exact ⟨by decide, h.1, h.2.1, h.2.2 (by decide)⟩

/-- C5: when the printed URL parses, establishment executes its actions in
the fixed source order (the claimed nine-step order embeds into the trace,
which also records the `print_ssh_url` remote command between starting the
tunnel and parsing its URL); this holds whether or not the persistence step
fails, so a persistence failure does not abort the procedure — `tunnel_info`
stays assigned and `prepare_sshd` still runs. -/
theorem C5_establishment_order_and_persist (env : InitEnv) (cid : String) (s : MState)
    (host : String) (port : Nat)
    (hp : parse_url env.raw_ssh_url = Except.ok (host, port)) :
    (initialize_tunnel env cid s).1 =
      [Step.install_libraries, Step.stop_ngrok, Step.generate_key_pair,
       Step.write_local_key, Step.install_ssh_keys, Step.generate_url,
       Step.print_ssh_url, Step.parse_tunnel_url, Step.set_registry,
       Step.prepare_sshd] ∧
    List.Sublist
      [Step.install_libraries, Step.stop_ngrok, Step.generate_key_pair,
       Step.write_local_key, Step.install_ssh_keys, Step.generate_url,
       Step.parse_tunnel_url, Step.set_registry, Step.prepare_sshd]
      (initialize_tunnel env cid s).1 ∧
    (initialize_tunnel env cid s).2.2 = none ∧
    (initialize_tunnel env cid s).2.1.tunnel_info = some ⟨host, port, "~/.ssh/" ++ cid⟩ := by
  have hsub : List.Sublist
      [Step.install_libraries, Step.stop_ngrok, Step.generate_key_pair,
       Step.write_local_key, Step.install_ssh_keys, Step.generate_url,
       Step.parse_tunnel_url, Step.set_registry, Step.prepare_sshd]
      [Step.install_libraries, Step.stop_ngrok, Step.generate_key_pair,
       Step.write_local_key, Step.install_ssh_keys, Step.generate_url,
       Step.print_ssh_url, Step.parse_tunnel_url, Step.set_registry,
       Step.prepare_sshd] := by decide
  obtain ⟨url, pf⟩ := env
  dsimp only at hp
  cases pf <;>
    · simp only [initialize_tunnel]
      rw [hp]
      exact ⟨rfl, hsub, rfl, rfl⟩

/-- C5 witness: a parseable URL with the persistence step failing. -/
theorem C5_establishment_order_and_persist_witness :
    parse_url (InitEnv.mk "tcp://10.0.0.5:4040" true).raw_ssh_url =
      Except.ok ("10.0.0.5", 4040) ∧
    (initialize_tunnel (InitEnv.mk "tcp://10.0.0.5:4040" true) "c1" plainState).1 =
      [Step.install_libraries, Step.stop_ngrok, Step.generate_key_pair,
       Step.write_local_key, Step.install_ssh_keys, Step.generate_url,
       Step.print_ssh_url, Step.parse_tunnel_url, Step.set_registry,
       Step.prepare_sshd] ∧
    (initialize_tunnel (InitEnv.mk "tcp://10.0.0.5:4040" true) "c1" plainState).2.2 =
      none ∧
    (initialize_tunnel (InitEnv.mk "tcp://10.0.0.5:4040" true) "c1"
        plainState).2.1.tunnel_info = some ⟨"10.0.0.5", 4040, "~/.ssh/" ++ "c1"⟩ := by
  have h := C5_establishment_order_and_persist (InitEnv.mk "tcp://10.0.0.5:4040" true)
    "c1" plainState "10.0.0.5" 4040 (by decide)
  exact ⟨by decide, h.1, h.2.2.1, h.2.2.2⟩

/-- C6: `SSHConfig.set` is an idempotent upsert — starting from a registry
with at most one block for the cluster, two identical `set` calls leave
exactly one block for it, carrying the written Hostname, Port, User and
IdentityFile values. -/
theorem C6_set_idempotent_upsert (c : SSHConf) (cid : String) (info : TunnelInfo)
    (hc : c.entries.countP (fun e => e.name == cid) ≤ 1) :
    ((SSHConfig.set (SSHConfig.set c cid info) cid info).entries).countP
        (fun e => e.name == cid) = 1 ∧
    ((SSHConfig.set (SSHConfig.set c cid info) cid info).host cid).lookup "hostname" =
      some info.host ∧
    ((SSHConfig.set (SSHConfig.set c cid info) cid info).host cid).lookup "port" =
      some (pyStr info.port) ∧
    ((SSHConfig.set (SSHConfig.set c cid info) cid info).host cid).lookup "user" =
      some "root" ∧
    ((SSHConfig.set (SSHConfig.set c cid info) cid info).host cid).lookup "identityfile" =
      some info.private_key_file := by
  have h1 := countP_SSHConfig_set c cid info hc
  have h2 := countP_SSHConfig_set (SSHConfig.set c cid info) cid info (le_of_eq h1)
  obtain ⟨fs, hfs⟩ := host_SSHConfig_set (SSHConfig.set c cid info) cid info
  exact ⟨h2, by rw [hfs, lookup_ssh_hostname], by rw [hfs, lookup_ssh_port],
    by rw [hfs, lookup_ssh_user], by rw [hfs, lookup_ssh_identityfile]⟩

/-- C6 witness: two identical `set` calls on an empty registry. -/
theorem C6_set_idempotent_upsert_witness :
    (emptyConf.entries.countP (fun e => e.name == "c1") ≤ 1) ∧
    ((SSHConfig.set (SSHConfig.set emptyConf "c1" info0) "c1" info0).entries).countP
        (fun e => e.name == "c1") = 1 ∧
    ((SSHConfig.set (SSHConfig.set emptyConf "c1" info0) "c1" info0).host "c1").lookup
        "hostname" = some info0.host ∧
    ((SSHConfig.set (SSHConfig.set emptyConf "c1" info0) "c1" info0).host "c1").lookup
        "port" = some (pyStr info0.port) ∧
    ((SSHConfig.set (SSHConfig.set emptyConf "c1" info0) "c1" info0).host "c1").lookup
        "user" = some "root" ∧
    ((SSHConfig.set (SSHConfig.set emptyConf "c1" info0) "c1" info0).host "c1").lookup
        "identityfile" = some info0.private_key_file := by
  have h := C6_set_idempotent_upsert emptyConf "c1" info0 (by decide)
  exact ⟨by decide, h.1, h.2.1, h.2.2.1, h.2.2.2.1, h.2.2.2.2⟩
